import Mathlib

set_option maxRecDepth 4000
set_option linter.unusedVariables false

/-!
Verification model of the sql-generator-backend service
(src/main.py, src/gemini_service.py, src/database.py).

Python strings are modeled as `List Char`; raw file bytes as `List Nat`
(each entry one byte).  Machine integers do not occur; all counters are `Nat`.
-/

/-! ## Python string helpers (str.strip, str.replace with fixed patterns) -/

/-- The backtick character (written via its code point). -/
def btick : Char := Char.ofNat 96

/-- ASCII whitespace stripped by Python `str.strip()`:
space, tab, newline, carriage return, vertical tab, form feed.
(Python also strips some further Unicode whitespace; none of the claims
involves it, and the modeled inputs are ASCII.) -/
def isPySpace (c : Char) : Bool :=
  c = ' ' || c = '\t' || c = '\n' || c = '\r' || c = Char.ofNat 11 || c = Char.ofNat 12

/-- Remove the longest trailing run of whitespace (the right half of `str.strip()`). -/
def dropTrailingSpace : List Char → List Char
  | [] => []
  | c :: cs =>
    match dropTrailingSpace cs with
    | [] => if isPySpace c then [] else [c]
    | d :: ds => c :: d :: ds

/-- Python `str.strip()`: drop leading then trailing whitespace. -/
def pyStrip (s : List Char) : List Char :=
  dropTrailingSpace (s.dropWhile isPySpace)

/-- Python `text.replace("```sql", "")`: left-to-right, non-overlapping removal of
the six-character marker.  At each position, if the next six characters are the
marker they are skipped, otherwise one character is emitted. -/
def removeFenceSql : List Char → List Char
  | c :: c2 :: c3 :: c4 :: c5 :: c6 :: rest =>
    if c = btick ∧ c2 = btick ∧ c3 = btick ∧ c4 = 's' ∧ c5 = 'q' ∧ c6 = 'l' then
      removeFenceSql rest
    else c :: removeFenceSql (c2 :: c3 :: c4 :: c5 :: c6 :: rest)
  | c :: cs => c :: removeFenceSql cs
  | [] => []

/-- Python `text.replace("```", "")`: left-to-right, non-overlapping removal of
the three-backtick marker. -/
def removeFence : List Char → List Char
  | c :: c2 :: c3 :: rest =>
    if c = btick ∧ c2 = btick ∧ c3 = btick then removeFence rest
    else c :: removeFence (c2 :: c3 :: rest)
  | c :: cs => c :: removeFence cs
  | [] => []

/-- Line 113 of src/main.py (identically line 45 of src/gemini_service.py):
`generated_text.strip().replace("```sql", "").replace("```", "").strip()`. -/
def sanitizeSql (text : List Char) : List Char :=
  pyStrip (removeFence (removeFenceSql (pyStrip text)))

/-- Does the list begin with three backticks? -/
def startsWithFence : List Char → Bool
  | c :: c2 :: c3 :: _ => c = btick && c2 = btick && c3 = btick
  | _ => false

/-- Does the three-backtick fence marker occur anywhere (as a contiguous substring)? -/
def containsFence : List Char → Bool
  | [] => false
  | c :: cs => startsWithFence (c :: cs) || containsFence cs

/-- Do the first two characters exist and equal backticks? -/
def startsBB : List Char → Bool
  | c :: c2 :: _ => c = btick && c2 = btick
  | _ => false

/-! ## JSON values and the Gemini response extraction (main.py lines 110-116,
gemini_service.py lines 42-47) -/

/-- JSON values, as produced by Python `response.json()`. -/
inductive Json where
  | null
  | bool (b : Bool)
  | num (n : Int)
  | str (s : List Char)
  | arr (elems : List Json)
  | obj (fields : List (List Char × Json))

/-- Python truthiness of a JSON-decoded value (`None`, `""`, `[]`, `{}`, `0`,
`False` are falsy). -/
def Json.truthy : Json → Bool
  | .null => false
  | .bool b => b
  | .num n => n != 0
  | .str s => !s.isEmpty
  | .arr l => !l.isEmpty
  | .obj l => !l.isEmpty

/-- Lookup in a JSON object; the last binding of a duplicated key wins, as in a
Python dict built by `json.loads`.  A missing key gives `null` (Python `dict.get`
returns `None`). -/
def objGet (fields : List (List Char × Json)) (key : List Char) : Json :=
  match fields.reverse.find? (fun kv => kv.1 == key) with
  | some kv => kv.2
  | none => .null

/-- Python `value.get(key)`: defined only on dicts; on any other value the
attribute access raises (`none` models the raised exception). -/
def jget : Json → List Char → Option Json
  | .obj fields, key => some (objGet fields key)
  | _, _ => none

/-- Python `value[0]`: defined on non-empty lists (first element) and non-empty
strings (one-character string); anything else raises (`none`). -/
def jindex0 : Json → Option Json
  | .arr (x :: _) => some x
  | .str (c :: _) => some (.str [c])
  | _ => none

/-- Outcome of the response-shape check and text extraction. -/
inductive Extracted where
  | ok (text : List Char)
  | shapeErr
  | pyErr

/-- Lines 111-113 of src/main.py (identically lines 43-45 of src/gemini_service.py):
the chained truthiness check
`result.get("candidates") and result["candidates"][0].get("content") and
result["candidates"][0]["content"].get("parts") and
result["candidates"][0]["content"]["parts"][0].get("text")`
followed by extraction of the text.  `shapeErr` is the explicit `else` branch
(the raised parse `HTTPException`); `pyErr` is any Python exception raised while
walking (wrong type, index error, or a non-string `text` failing `.strip()`). -/
def extractText (result : Json) : Extracted :=
  match jget result "candidates".data with
  | none => .pyErr
  | some cands =>
    if cands.truthy then
      match jindex0 cands with
      | none => .pyErr
      | some cand0 =>
        match jget cand0 "content".data with
        | none => .pyErr
        | some content =>
          if content.truthy then
            match jget content "parts".data with
            | none => .pyErr
            | some parts =>
              if parts.truthy then
                match jindex0 parts with
                | none => .pyErr
                | some part0 =>
                  match jget part0 "text".data with
                  | none => .pyErr
                  | some t =>
                    if t.truthy then
                      match t with
                      | .str s => .ok s
                      | _ => .pyErr
                    else .shapeErr
              else .shapeErr
          else .shapeErr
    else .shapeErr

/-! ## The synthesizer `generate_sql_from_gemini` (src/main.py lines 74-122 and
src/gemini_service.py lines 11-51)

The upstream network is modeled as a function `up : Nat → Attempt` giving, for
each successive HTTP POST the code makes, either the upstream response
(status code and JSON body) or a network-level failure (`httpx.RequestError`).
Waiting (`asyncio.sleep`) is modeled by accumulating the slept seconds. -/

/-- A FastAPI `HTTPException`: status code and human-readable detail. -/
structure HTTPError where
  status : Nat
  detail : List Char
deriving DecidableEq

/-- Outcome of one attempted HTTP POST to the generation endpoint. -/
inductive Attempt where
  | resp (status : Nat) (body : Json)
  | netFail

/-- Exceptions that the body of the `try` block can raise:
a FastAPI `HTTPException` raised by the code itself, an
`httpx.HTTPStatusError` from `response.raise_for_status()`, an
`httpx.RequestError` from the POST, or some other Python exception
(attribute/type/index errors while walking the response). -/
inductive PyExc where
  | httpExc (e : HTTPError)
  | httpStatusErr (status : Nat)
  | reqErr
  | otherErr

/-- What the `try` block does: return a value or raise an exception. -/
inductive TryOut where
  | ret (s : List Char)
  | raised (e : PyExc)

/-- Result of the retry loop: either a `RequestError` escaped, or the loop left
a final response bound; in both cases the number of requests sent and the total
seconds slept are recorded. -/
inductive LoopOut where
  | network (reqs : Nat) (slept : Nat)
  | final (status : Nat) (body : Json) (reqs : Nat) (slept : Nat)

/-- src/main.py lines 104-108, the loop `for i in range(3)` unrolled:
POST; break if the status is exactly 200; otherwise sleep `2 ** i` seconds and
retry.  After the third failed attempt the loop still sleeps `4` seconds and
then falls through with the third response bound. -/
def runAttempts (up : Nat → Attempt) : LoopOut :=
  match up 0 with
  | .netFail => .network 1 0
  | .resp s0 b0 =>
    if s0 = 200 then .final s0 b0 1 0
    else
      match up 1 with
      | .netFail => .network 2 1
      | .resp s1 b1 =>
        if s1 = 200 then .final s1 b1 2 1
        else
          match up 2 with
          | .netFail => .network 3 (1 + 2)
          | .resp s2 b2 =>
            if s2 = 200 then .final s2 b2 3 (1 + 2)
            else .final s2 b2 3 (1 + 2 + 4)

/-- Detail of the `HTTPException` for a missing API key in src/main.py line 80. -/
def configDetailMain : List Char :=
  "GEMINI_API_KEY environment variable not set. Please configure the API key.".data

/-- Detail of the parse-failure `HTTPException` constructed at src/main.py
line 116 and, with the identical literal, at src/gemini_service.py line 47. -/
def parseDetail : List Char :=
  "Could not parse the response from the AI model.".data

/-- Detail of the 503 raised in the `httpx.RequestError` handler, src/main.py line 119. -/
def netDetailMain : List Char :=
  "Service Unavailable: Could not connect to the AI model.".data

/-- Detail of the 500 raised in the blanket `except Exception` handler,
src/main.py line 122. -/
def internalDetailMain : List Char :=
  "An internal server error occurred.".data

/-- The `try` block of src/main.py lines 103-116: run the retry loop, call
`response.raise_for_status()` (raises `httpx.HTTPStatusError` unless the final
status is 2xx), parse the body, check the response shape, and sanitize the
extracted text.  Returns what the block returns or raises, with the request
count and seconds slept. -/
def tryBodyMain (up : Nat → Attempt) : TryOut × Nat × Nat :=
  match runAttempts up with
  | .network reqs slept => (.raised .reqErr, reqs, slept)
  | .final status body reqs slept =>
    if 200 ≤ status ∧ status < 300 then
      match extractText body with
      | .ok t => (.ret (sanitizeSql t), reqs, slept)
      | .shapeErr => (.raised (.httpExc ⟨500, parseDetail⟩), reqs, slept)
      | .pyErr => (.raised .otherErr, reqs, slept)
    else (.raised (.httpStatusErr status), reqs, slept)

/-- src/main.py lines 117-122: `except httpx.RequestError` maps a network
failure to 503; `except Exception` catches every other exception — including
the `HTTPException` the code itself raised at line 116 and the
`httpx.HTTPStatusError` from `raise_for_status()`, since both derive from
`Exception` and `HTTPStatusError` is not a `RequestError` — and replaces it
with a 500 whose detail is the constant internal-error message. -/
def applyHandlersMain : TryOut → Except HTTPError (List Char)
  | .ret s => .ok s
  | .raised .reqErr => .error ⟨503, netDetailMain⟩
  | .raised _ => .error ⟨500, internalDetailMain⟩

/-- Python falsiness of `API_KEY` (src/main.py line 79 `if not API_KEY`):
`os.getenv` returned `None`, or the variable is set to the empty string. -/
def keyMissing : Option (List Char) → Bool
  | none => true
  | some s => s.isEmpty

/-- src/main.py lines 74-122, `generate_sql_from_gemini(schema_ddl, business_logic)`.
Returns the function's outcome together with the number of upstream HTTP
requests sent and the total seconds slept.  `schemaDdl` and `businessLogic`
enter the upstream request only through the prompt (see `promptMain`); the
modeled upstream `up` abstracts over the response. -/
def generateSqlFromGeminiMain (apiKey : Option (List Char))
    (schemaDdl businessLogic : List Char) (up : Nat → Attempt) :
    Except HTTPError (List Char) × Nat × Nat :=
  if keyMissing apiKey then (.error ⟨500, configDetailMain⟩, 0, 0)
  else
    match tryBodyMain up with
    | (o, reqs, slept) => (applyHandlersMain o, reqs, slept)

/-- The f-string prompt of src/main.py lines 82-100.  The `"\n"` in
instruction 3 is an escape in the Python source, so the prompt text contains a
literal newline between the two quotes. -/
def promptMain (schemaDdl businessLogic : List Char) : List Char :=
  ("\n    You are an expert PostgreSQL developer. Your task is to translate a user's business logic into a precise and executable PostgreSQL query based on the provided database schema.\n\n    **Instructions:**\n    1.  Analyze the database schema below to understand the table structures, columns, and relationships.\n    2.  Read the user's business logic carefully.\n    3.  Generate a single, clean, and correct PostgreSQL query that fulfills the user's request with no \"\n\" please.\n    4.  Do not include any explanations, comments, or markdown formatting in your response. Only output the raw SQL query.\n\n    **Database Schema (DDL):**\n    ```sql\n    ").data
  ++ schemaDdl
  ++ ("\n    ```\n\n    **User's Business Logic:**\n    \"").data
  ++ businessLogic
  ++ ("\"\n\n    **Generated PostgreSQL Query:**\n    ").data

/-- The f-string prompt of src/gemini_service.py lines 18-36 (byte-identical to
the one in src/main.py). -/
def promptService (schemaDdl businessLogic : List Char) : List Char :=
  ("\n    You are an expert PostgreSQL developer. Your task is to translate a user's business logic into a precise and executable PostgreSQL query based on the provided database schema.\n\n    **Instructions:**\n    1.  Analyze the database schema below to understand the table structures, columns, and relationships.\n    2.  Read the user's business logic carefully.\n    3.  Generate a single, clean, and correct PostgreSQL query that fulfills the user's request with no \"\n\" please.\n    4.  Do not include any explanations, comments, or markdown formatting in your response. Only output the raw SQL query.\n\n    **Database Schema (DDL):**\n    ```sql\n    ").data
  ++ schemaDdl
  ++ ("\n    ```\n\n    **User's Business Logic:**\n    \"").data
  ++ businessLogic
  ++ ("\"\n\n    **Generated PostgreSQL Query:**\n    ").data

/-- The request body `{"contents": [{"role": "user", "parts": [{"text": prompt}]}]}`
(src/main.py line 101, src/gemini_service.py line 37). -/
def requestPayload (prompt : List Char) : Json :=
  .obj [("contents".data,
    .arr [.obj [("role".data, .str "user".data),
                ("parts".data, .arr [.obj [("text".data, .str prompt)]])]])]

/-- The payload built by src/main.py. -/
def requestPayloadMain (schemaDdl businessLogic : List Char) : Json :=
  requestPayload (promptMain schemaDdl businessLogic)

/-- The payload built by src/gemini_service.py. -/
def requestPayloadService (schemaDdl businessLogic : List Char) : Json :=
  requestPayload (promptService schemaDdl businessLogic)

/-- Outcome of the src/gemini_service.py variant.  Its 503 and generic-500
details interpolate `str(e)` of the caught exception; no claim reads those
texts, so only the classification is modeled. -/
inductive ServiceOut where
  | ok (sql : List Char)
  | configErr
  | netErr
  | internalErr

/-- The `try` block of src/gemini_service.py lines 39-47: a single POST, no
retry; otherwise the same `raise_for_status`, shape check and sanitization as
the src/main.py variant (lines 43-45 are byte-identical to main.py 111-113). -/
def tryBodyService (up : Nat → Attempt) : TryOut :=
  match up 0 with
  | .netFail => .raised .reqErr
  | .resp status body =>
    if 200 ≤ status ∧ status < 300 then
      match extractText body with
      | .ok t => .ret (sanitizeSql t)
      | .shapeErr => .raised (.httpExc ⟨500, parseDetail⟩)
      | .pyErr => .raised .otherErr
    else .raised (.httpStatusErr status)

/-- src/gemini_service.py lines 11-51, `generate_sql_from_gemini`.  As in the
main.py variant, the blanket `except Exception` (line 50) also swallows the
parse `HTTPException` raised at line 47 and the `HTTPStatusError`. -/
def generateSqlFromGeminiService (apiKey : Option (List Char))
    (schemaDdl businessLogic : List Char) (up : Nat → Attempt) : ServiceOut :=
  if keyMissing apiKey then .configErr
  else
    match tryBodyService up with
    | .ret s => .ok s
    | .raised .reqErr => .netErr
    | .raised _ => .internalErr

/-! ## UTF-8 decoding

src/main.py line 137 writes the uploaded bytes with `open(..., "wb")`, while
line 161 reads them back with `open(..., "r")`, which decodes the file
strictly as UTF-8 text (the interpreter default encoding in the deployment
environment); undecodable bytes raise a `UnicodeDecodeError`.  `utf8Decode`
is a strict UTF-8 decoder: rejects bare continuation bytes, overlong forms,
surrogates, and code points above 0x10FFFF, as CPython does. -/

/-- Is `b` a UTF-8 continuation byte (0x80-0xBF)? -/
def isContByte (b : Nat) : Bool := 0x80 ≤ b && b ≤ 0xBF

/-- Strict UTF-8 decoding of a byte list, `none` on any invalid sequence. -/
def utf8Decode : List Nat → Option (List Char)
  | [] => some []
  | b :: rest =>
    if b < 0x80 then
      (utf8Decode rest).map (fun cs => Char.ofNat b :: cs)
    else if 0xC2 ≤ b ∧ b ≤ 0xDF then
      match rest with
      | b2 :: rest2 =>
        if isContByte b2 then
          (utf8Decode rest2).map (fun cs =>
            Char.ofNat ((b - 0xC0) * 0x40 + (b2 - 0x80)) :: cs)
        else none
      | [] => none
    else if (b = 0xE0 ∨ (0xE1 ≤ b ∧ b ≤ 0xEF)) then
      match rest with
      | b2 :: b3 :: rest2 =>
        if (if b = 0xE0 then 0xA0 ≤ b2 && b2 ≤ 0xBF
            else if b = 0xED then 0x80 ≤ b2 && b2 ≤ 0x9F
            else isContByte b2) && isContByte b3 then
          (utf8Decode rest2).map (fun cs =>
            Char.ofNat ((b - 0xE0) * 0x1000 + (b2 - 0x80) * 0x40 + (b3 - 0x80)) :: cs)
        else none
      | _ => none
    else if (b = 0xF0 ∨ (0xF1 ≤ b ∧ b ≤ 0xF4)) then
      match rest with
      | b2 :: b3 :: b4 :: rest2 =>
        if (if b = 0xF0 then 0x90 ≤ b2 && b2 ≤ 0xBF
            else if b = 0xF4 then 0x80 ≤ b2 && b2 ≤ 0x8F
            else isContByte b2) && isContByte b3 && isContByte b4 then
          (utf8Decode rest2).map (fun cs =>
            Char.ofNat ((b - 0xF0) * 0x40000 + (b2 - 0x80) * 0x1000 +
              (b3 - 0x80) * 0x40 + (b4 - 0x80)) :: cs)
        else none
      | _ => none
    else none

/-! ## The HTTP endpoints (src/main.py lines 127-173)

The only persistent state is the schema file at `uploads/schema.sql`,
modeled as `Option (List Nat)`: `none` before any upload
(`os.path.exists` is false), `some bytes` afterwards. -/

/-- Result of `upload_ddl_schema` together with the new stored state
(src/main.py lines 127-144, success path: `file.read()` then an overwriting
binary write of the raw bytes to `SCHEMA_FILE_PATH`). -/
structure UploadOut where
  store : Option (List Nat)
  message : List Char
  filename : List Char

/-- src/main.py `upload_ddl_schema`: stores the uploaded bytes verbatim,
overwriting whatever was there, and reports success. -/
def uploadDdlSchema (store : Option (List Nat)) (contents : List Nat)
    (filename : List Char) : UploadOut :=
  { store := some contents
    message := ("Successfully uploaded and saved schema from ".data) ++ filename
    filename := filename }

/-- Detail of the 400 at src/main.py lines 155-158. -/
def noSchemaDetail : List Char :=
  "No schema file found. Please upload your dump.sql file to the /upload-ddl-schema/ endpoint first.".data

/-- Detail of the 400 at src/main.py line 165. -/
def emptyLogicDetail : List Char :=
  "Business logic must not be empty.".data

/-- What a `/generate-sql/` request produces: a 200 `{sql_query}` body, a
raised `HTTPException`, or an unhandled `UnicodeDecodeError` escaping the
handler (which the framework reports as a generic 500 server failure). -/
inductive EndpointResult where
  | ok (sqlQuery : List Char)
  | httpError (e : HTTPError)
  | decodeError
deriving DecidableEq

/-- Observable trace of a `/generate-sql/` request: the response, the
synthesizer invocation (its `schema_ddl` and `business_logic` arguments) if the
synthesizer was called, and the upstream requests sent / seconds slept. -/
structure GenTrace where
  result : EndpointResult
  synthCall : Option (List Char × List Char)
  requests : Nat
  slept : Nat
deriving DecidableEq

/-- src/main.py lines 147-173, `generate_sql_endpoint`: 400 if the schema file
does not exist; otherwise the file is read as text (line 161, before the
emptiness check — an undecodable file raises here); 400 if `business_logic` is
empty; otherwise the synthesizer is called and its result or exception is the
response. -/
def generateSqlEndpoint (store : Option (List Nat)) (businessLogic : List Char)
    (apiKey : Option (List Char)) (up : Nat → Attempt) : GenTrace :=
  match store with
  | none => ⟨.httpError ⟨400, noSchemaDetail⟩, none, 0, 0⟩
  | some bytes =>
    match utf8Decode bytes with
    | none => ⟨.decodeError, none, 0, 0⟩
    | some schemaDdl =>
      if businessLogic.isEmpty then ⟨.httpError ⟨400, emptyLogicDetail⟩, none, 0, 0⟩
      else
        match generateSqlFromGeminiMain apiKey schemaDdl businessLogic up with
        | (.ok sql, reqs, slept) => ⟨.ok sql, some (schemaDdl, businessLogic), reqs, slept⟩
        | (.error e, reqs, slept) => ⟨.httpError e, some (schemaDdl, businessLogic), reqs, slept⟩

/-! ## Database pool startup (src/database.py lines 19-29) -/

/-- src/database.py `connect_to_db`: the outcome of `asyncpg.create_pool` is
given by the environment (`.ok` a pool handle, `.error` the exception text).
The function returns normally in both cases — the `except` clause prints and
sets the global `pool` to `None` — so the returned `Except` is always `.ok`;
the second component is the line printed to stdout. -/
def connectToDb (createPool : Except (List Char) Nat) :
    Except (List Char) (Option Nat) × List Char :=
  match createPool with
  | .ok p => (.ok (some p), "Database connection pool created successfully.".data)
  | .error e => (.ok none, ("FATAL: Could not connect to database: ".data) ++ e)

/-- A well-shaped upstream body whose `candidates[0].content.parts[0].text` is `t`. -/
def wellBody (t : List Char) : Json :=
  .obj [("candidates".data, .arr [.obj [("content".data,
    .obj [("parts".data, .arr [.obj [("text".data, .str t)]])])]])]

/-! ## Sanitization removes every fence marker

`removeFence` scans left to right, so its output cannot contain three
consecutive backticks; stripping whitespace afterwards only shortens the list
at both ends and cannot create one. -/

theorem startsBB_of_head_ne (c : Char) (t : List Char) (hc : c ≠ btick) :
    startsBB (c :: t) = false := by
  match t with
  | [] => rfl
  | d :: r => simp [startsBB, hc]

theorem startsWithFence_of_head_ne (c : Char) (t : List Char) (hc : c ≠ btick) :
    startsWithFence (c :: t) = false := by
  match t with
  | [] => rfl
  | [d] => rfl
  | d :: d2 :: r => simp [startsWithFence, hc]

theorem startsWithFence_cons_of_tail (c : Char) (t : List Char)
    (h : startsBB t = false) : startsWithFence (c :: t) = false := by
  match t with
  | [] => rfl
  | [d] => rfl
  | d :: d2 :: r =>
    have h2 : (decide (d = btick) && decide (d2 = btick)) = false := h
    simp only [startsWithFence, Bool.and_assoc, h2, Bool.and_false]

theorem removeFence_cons_of_not_bb (c c2 : Char) (cs : List Char)
    (h : ¬(c = btick ∧ c2 = btick)) :
    removeFence (c :: c2 :: cs) = c :: removeFence (c2 :: cs) := by
  match cs with
  | [] => rfl
  | c3 :: rest =>
    simp only [removeFence]
    rw [if_neg (by tauto)]

theorem startsBB_removeFence (s : List Char) (h : startsBB s = false) :
    startsBB (removeFence s) = false := by
  match s with
  | [] => rfl
  | [c] => rfl
  | c :: c2 :: cs =>
    simp only [startsBB, Bool.and_eq_false_iff, decide_eq_false_iff_not] at h
    have hne : ¬(c = btick ∧ c2 = btick) := by tauto
    rw [removeFence_cons_of_not_bb c c2 cs hne]
    rcases h with hc | hc2
    · exact startsBB_of_head_ne _ _ hc
    · match cs with
      | [] => simp [removeFence, startsBB, hc2]
      | d :: ds =>
        rw [removeFence_cons_of_not_bb c2 d ds (by tauto)]
        simp [startsBB, hc2]

theorem containsFence_cons (c : Char) (t : List Char) :
    containsFence (c :: t) = (startsWithFence (c :: t) || containsFence t) := rfl

theorem containsFence_removeFence_aux :
    ∀ (n : Nat) (s : List Char), s.length ≤ n →
      containsFence (removeFence s) = false := by
  intro n
  induction n with
  | zero =>
    intro s hs
    match s with
    | [] => rfl
    | c :: cs => simp at hs
  | succ n ih =>
    intro s hs
    match s with
    | [] => rfl
    | [c] => rfl
    | [c, c2] => rfl
    | c :: c2 :: c3 :: cs =>
      simp only [List.length_cons] at hs
      by_cases hg : c = btick ∧ c2 = btick ∧ c3 = btick
      · have hrw : removeFence (c :: c2 :: c3 :: cs) = removeFence cs := by
          simp only [removeFence]
          rw [if_pos hg]
        rw [hrw]
        exact ih cs (by omega)
      · have hrw : removeFence (c :: c2 :: c3 :: cs) =
            c :: removeFence (c2 :: c3 :: cs) := by
          simp only [removeFence]
          rw [if_neg hg]
        rw [hrw]
        have htail : containsFence (removeFence (c2 :: c3 :: cs)) = false :=
          ih (c2 :: c3 :: cs) (by simp; omega)
        have hsw : startsWithFence (c :: removeFence (c2 :: c3 :: cs)) = false := by
          by_cases hc : c = btick
          · have hbb0 : startsBB (c2 :: c3 :: cs) = false := by
              by_cases h2 : c2 = btick
              · by_cases h3 : c3 = btick
                · exact absurd ⟨hc, h2, h3⟩ hg
                · simp [startsBB, h3]
              · simp [startsBB, h2]
            exact startsWithFence_cons_of_tail _ _ (startsBB_removeFence _ hbb0)
          · exact startsWithFence_of_head_ne _ _ hc
        rw [containsFence_cons, hsw, htail]
        rfl

/-- The output of `removeFence` never contains three consecutive backticks. -/
theorem containsFence_removeFence (s : List Char) :
    containsFence (removeFence s) = false :=
  containsFence_removeFence_aux s.length s le_rfl

theorem containsFence_tail (c : Char) (cs : List Char)
    (h : containsFence (c :: cs) = false) : containsFence cs = false := by
  rw [containsFence_cons] at h
  exact (Bool.or_eq_false_iff.mp h).2

theorem startsWithFence_cons_take (c : Char) (cs : List Char) (n : Nat)
    (h : startsWithFence (c :: cs) = false) :
    startsWithFence (c :: cs.take n) = false := by
  match n, cs with
  | 0, _ => rfl
  | _+1, [] => rfl
  | _+1, [d] => simp only [List.take_succ_cons, List.take_nil]; rfl
  | 1, d :: d2 :: rest => rfl
  | n+2, d :: d2 :: rest => exact h

theorem containsFence_take :
    ∀ (s : List Char) (n : Nat), containsFence s = false →
      containsFence (s.take n) = false := by
  intro s
  induction s with
  | nil => intro n h; rw [List.take_nil]; rfl
  | cons c cs ih =>
    intro n h
    match n with
    | 0 => rfl
    | n+1 =>
      rw [List.take_succ_cons, containsFence_cons]
      have h1 : startsWithFence (c :: cs) = false := by
        rw [containsFence_cons] at h
        exact (Bool.or_eq_false_iff.mp h).1
      rw [startsWithFence_cons_take c cs n h1, ih n (containsFence_tail c cs h)]
      rfl

theorem containsFence_dropWhile :
    ∀ (s : List Char), containsFence s = false →
      containsFence (s.dropWhile isPySpace) = false := by
  intro s
  induction s with
  | nil => intro h; exact h
  | cons c cs ih =>
    intro h
    rw [List.dropWhile_cons]
    by_cases hc : isPySpace c = true
    · rw [if_pos hc]
      exact ih (containsFence_tail c cs h)
    · rw [if_neg hc]
      exact h

theorem dropTrailingSpace_eq_take :
    ∀ (s : List Char), ∃ k, dropTrailingSpace s = s.take k := by
  intro s
  induction s with
  | nil => exact ⟨0, rfl⟩
  | cons c cs ih =>
    obtain ⟨k, hk⟩ := ih
    match hr : dropTrailingSpace cs with
    | [] =>
      by_cases hc : isPySpace c = true
      · exact ⟨0, by simp [dropTrailingSpace, hr, hc]⟩
      · exact ⟨1, by simp [dropTrailingSpace, hr, hc]⟩
    | d :: ds =>
      refine ⟨k + 1, ?_⟩
      simp only [dropTrailingSpace, hr]
      rw [List.take_succ_cons, ← hr, hk]

theorem containsFence_dropTrailingSpace (s : List Char)
    (h : containsFence s = false) :
    containsFence (dropTrailingSpace s) = false := by
  obtain ⟨k, hk⟩ := dropTrailingSpace_eq_take s
  rw [hk]
  exact containsFence_take s k h

theorem containsFence_pyStrip (s : List Char) (h : containsFence s = false) :
    containsFence (pyStrip s) = false :=
  containsFence_dropTrailingSpace _ (containsFence_dropWhile s h)

/-- Sanitized output never contains the three-backtick fence marker (and hence
no occurrence of the six-character marker either). -/
theorem containsFence_sanitizeSql (t : List Char) :
    containsFence (sanitizeSql t) = false :=
  containsFence_pyStrip _ (containsFence_removeFence _)

/-! ## Evaluation lemmas for symbolic upstream interactions -/

theorem runAttempts_first_ok (up : Nat → Attempt) (body : Json)
    (hu0 : up 0 = .resp 200 body) :
    runAttempts up = .final 200 body 1 0 := by
  simp only [runAttempts, hu0]
  rw [if_pos trivial]

theorem runAttempts_third_ok (up : Nat → Attempt) (s0 s1 : Nat) (b0 b1 body : Json)
    (hu0 : up 0 = .resp s0 b0) (h0 : s0 ≠ 200)
    (hu1 : up 1 = .resp s1 b1) (h1 : s1 ≠ 200)
    (hu2 : up 2 = .resp 200 body) :
    runAttempts up = .final 200 body 3 (1 + 2) := by
  simp only [runAttempts, hu0, hu1, hu2]
  rw [if_neg h0, if_neg h1, if_pos trivial]

theorem runAttempts_all_fail (up : Nat → Attempt) (s0 s1 s2 : Nat) (b0 b1 b2 : Json)
    (hu0 : up 0 = .resp s0 b0) (h0 : s0 ≠ 200)
    (hu1 : up 1 = .resp s1 b1) (h1 : s1 ≠ 200)
    (hu2 : up 2 = .resp s2 b2) (h2 : s2 ≠ 200) :
    runAttempts up = .final s2 b2 3 (1 + 2 + 4) := by
  simp only [runAttempts, hu0, hu1, hu2]
  rw [if_neg h0, if_neg h1, if_neg h2]

theorem tryBodyMain_first_ok (up : Nat → Attempt) (body : Json) (t : List Char)
    (hu0 : up 0 = .resp 200 body) (hex : extractText body = .ok t) :
    tryBodyMain up = (.ret (sanitizeSql t), 1, 0) := by
  simp only [tryBodyMain, runAttempts_first_ok up body hu0]
  rw [if_pos (by omega), hex]

theorem tryBodyMain_third_ok (up : Nat → Attempt) (s0 s1 : Nat) (b0 b1 body : Json)
    (t : List Char)
    (hu0 : up 0 = .resp s0 b0) (hn0 : ¬(200 ≤ s0 ∧ s0 < 300))
    (hu1 : up 1 = .resp s1 b1) (hn1 : ¬(200 ≤ s1 ∧ s1 < 300))
    (hu2 : up 2 = .resp 200 body) (hex : extractText body = .ok t) :
    tryBodyMain up = (.ret (sanitizeSql t), 3, 1 + 2) := by
  have h0 : s0 ≠ 200 := fun hh => hn0 (by omega)
  have h1 : s1 ≠ 200 := fun hh => hn1 (by omega)
  simp only [tryBodyMain, runAttempts_third_ok up s0 s1 b0 b1 body hu0 h0 hu1 h1 hu2]
  rw [if_pos (by omega), hex]

theorem tryBodyMain_all_fail (up : Nat → Attempt) (s0 s1 s2 : Nat) (b0 b1 b2 : Json)
    (hu0 : up 0 = .resp s0 b0) (hn0 : ¬(200 ≤ s0 ∧ s0 < 300))
    (hu1 : up 1 = .resp s1 b1) (hn1 : ¬(200 ≤ s1 ∧ s1 < 300))
    (hu2 : up 2 = .resp s2 b2) (hn2 : ¬(200 ≤ s2 ∧ s2 < 300)) :
    tryBodyMain up = (.raised (.httpStatusErr s2), 3, 1 + 2 + 4) := by
  have h0 : s0 ≠ 200 := fun hh => hn0 (by omega)
  have h1 : s1 ≠ 200 := fun hh => hn1 (by omega)
  have h2 : s2 ≠ 200 := fun hh => hn2 (by omega)
  simp only [tryBodyMain, runAttempts_all_fail up s0 s1 s2 b0 b1 b2 hu0 h0 hu1 h1 hu2 h2]
  rw [if_neg hn2]

theorem genMain_eq (key : Option (List Char)) (s b : List Char) (up : Nat → Attempt)
    (hkey : keyMissing key = false) (o : TryOut) (reqs slept : Nat)
    (htb : tryBodyMain up = (o, reqs, slept)) :
    generateSqlFromGeminiMain key s b up = (applyHandlersMain o, reqs, slept) := by
  unfold generateSqlFromGeminiMain
  rw [hkey, htb]
  simp

theorem isEmpty_false_of_ne_nil {b : List Char} (hb : b ≠ []) : b.isEmpty = false := by
  cases b with
  | nil => exact absurd rfl hb
  | cons x xs => rfl

theorem genEndpoint_called (bytes : List Nat) (schema b : List Char)
    (key : Option (List Char)) (up : Nat → Attempt)
    (hdec : utf8Decode bytes = some schema) (hb : b ≠ []) :
    (generateSqlEndpoint (some bytes) b key up).synthCall = some (schema, b) ∧
    (generateSqlEndpoint (some bytes) b key up).result =
      (match (generateSqlFromGeminiMain key schema b up).1 with
        | .ok q => .ok q
        | .error e => .httpError e) := by
  have hbe := isEmpty_false_of_ne_nil hb
  rcases hgen : generateSqlFromGeminiMain key schema b up with ⟨o, reqs, slept⟩
  cases o with
  | ok q => simp [generateSqlEndpoint, hdec, hbe, hgen]
  | error e => simp [generateSqlEndpoint, hdec, hbe, hgen]

theorem genEndpoint_empty_logic (bytes : List Nat) (schema : List Char)
    (key : Option (List Char)) (up : Nat → Attempt)
    (hdec : utf8Decode bytes = some schema) :
    generateSqlEndpoint (some bytes) [] key up =
      ⟨.httpError ⟨400, emptyLogicDetail⟩, none, 0, 0⟩ := by
  simp [generateSqlEndpoint, hdec]

/-! ## Claims -/

/-- Claim C1, counterexample.  With an uploaded schema, non-empty
business_logic, a configured key and a first-attempt 200 response whose
extracted text is `SELECT 1\nFROM t` (no surrounding whitespace, no fences),
`generate_sql` returns that text unchanged: the returned string contains a
literal newline, contradicting the claim that the result never contains
newline characters (sanitization only strips the ends and removes fence
markers; interior newlines survive). -/
theorem claim_C1_newline_counterexample :
    (generateSqlEndpoint (some [67]) ['b'] (some ['k'])
        (fun _ => .resp 200 (wellBody "SELECT 1\nFROM t".data))).result
      = .ok "SELECT 1\nFROM t".data ∧
    '\n' ∈ "SELECT 1\nFROM t".data :=
  ⟨rfl, by decide⟩

/-- Claim C1, amended.  For every well-shaped upstream response whose
`candidates[0].content.parts[0].text` is present and non-empty, and every
non-empty business_logic with an uploaded schema that decodes as text,
`generate_sql` returns the extracted text stripped of leading/trailing
whitespace with the literal markers of the form three backticks + `sql` and
three backticks removed left-to-right (then trimmed again), and the returned
string contains no fence marker; newline characters inside the text are not
removed and may remain in the returned string. -/
theorem claim_C1_sanitized_output
    (bytes : List Nat) (schema b : List Char) (key : Option (List Char))
    (up : Nat → Attempt) (body : Json) (t : List Char)
    (hdec : utf8Decode bytes = some schema) (hb : b ≠ [])
    (hkey : keyMissing key = false)
    (hu0 : up 0 = .resp 200 body) (hex : extractText body = .ok t) :
    (generateSqlEndpoint (some bytes) b key up).result = .ok (sanitizeSql t) ∧
    containsFence (sanitizeSql t) = false := by
  refine ⟨?_, containsFence_sanitizeSql t⟩
  have hsynth : generateSqlFromGeminiMain key schema b up = (.ok (sanitizeSql t), 1, 0) := by
    rw [genMain_eq key schema b up hkey _ 1 0 (tryBodyMain_first_ok up body t hu0 hex)]
    rfl
  rw [(genEndpoint_called bytes schema b key up hdec hb).2, hsynth]

/-- Claim C1, witness: the amended theorem applied at a concrete run
(schema byte `C`, business_logic `b`, key `k`, upstream text `SELECT 1`). -/
theorem claim_C1_sanitized_output_witness :
    (generateSqlEndpoint (some [67]) ['b'] (some ['k'])
        (fun _ => .resp 200 (wellBody "SELECT 1".data))).result
      = .ok (sanitizeSql "SELECT 1".data) ∧
    containsFence (sanitizeSql "SELECT 1".data) = false :=
  claim_C1_sanitized_output [67] ['C'] ['b'] (some ['k'])
    (fun _ => .resp 200 (wellBody "SELECT 1".data)) (wellBody "SELECT 1".data)
    "SELECT 1".data (by decide) (by decide) rfl rfl rfl

/-- Claim C2, counterexample.  Key configured, every attempt answers HTTP 404
with body `{}`: the synthesizer fails with status 500 and the constant
internal-error detail — not with the upstream's 404.  `raise_for_status()`
raises `httpx.HTTPStatusError`, which is not an `httpx.RequestError`, so the
blanket `except Exception` catches it and substitutes
`HTTPException(500, "An internal server error occurred.")`. -/
theorem claim_C2_status_counterexample :
    (generateSqlFromGeminiMain (some ['k']) ['s'] ['b']
        (fun _ => .resp 404 (.obj []))).1 = .error ⟨500, internalDetailMain⟩ ∧
    (500 : Nat) ≠ 404 :=
  ⟨rfl, by decide⟩

/-- Claim C2, amended.  If every retried request returns a non-success HTTP
status, the synthesizer fails with HTTP 500 and the constant detail
`An internal server error occurred.`, regardless of the upstream status: the
upstream status code is substituted, not propagated. -/
theorem claim_C2_substituted_status
    (key : Option (List Char)) (s b : List Char) (up : Nat → Attempt)
    (s0 s1 s2 : Nat) (b0 b1 b2 : Json)
    (hkey : keyMissing key = false)
    (hu0 : up 0 = .resp s0 b0) (hn0 : ¬(200 ≤ s0 ∧ s0 < 300))
    (hu1 : up 1 = .resp s1 b1) (hn1 : ¬(200 ≤ s1 ∧ s1 < 300))
    (hu2 : up 2 = .resp s2 b2) (hn2 : ¬(200 ≤ s2 ∧ s2 < 300)) :
    (generateSqlFromGeminiMain key s b up).1 = .error ⟨500, internalDetailMain⟩ := by
  rw [genMain_eq key s b up hkey _ 3 (1 + 2 + 4)
    (tryBodyMain_all_fail up s0 s1 s2 b0 b1 b2 hu0 hn0 hu1 hn1 hu2 hn2)]
  rfl

/-- Claim C2, witness: the amended theorem applied with all three attempts
answering 404. -/
theorem claim_C2_substituted_status_witness :
    keyMissing (some ['k']) = false ∧
    (generateSqlFromGeminiMain (some ['k']) ['s'] ['b']
        (fun _ => .resp 404 (.obj [("e".data, .null)]))).1
      = .error ⟨500, internalDetailMain⟩ :=
  ⟨rfl, claim_C2_substituted_status (some ['k']) ['s'] ['b']
    (fun _ => .resp 404 (.obj [("e".data, .null)]))
    404 404 404 (.obj [("e".data, .null)]) (.obj [("e".data, .null)])
    (.obj [("e".data, .null)])
    rfl rfl (by omega) rfl (by omega) rfl (by omega)⟩

/-- Claim C3.  On non-success statuses the loop makes 3 attempts total,
sleeping 1s, 2s and 4s before giving up, and the response inspected by
`raise_for_status` is the third (its status appears in the raised
`HTTPStatusError`); and if the first two attempts fail while the third
returns 200 with a well-shaped body, the overall call succeeds having slept
exactly 1s+2s. -/
theorem claim_C3_retry_backoff :
    (∀ (up : Nat → Attempt) (s0 s1 s2 : Nat) (b0 b1 b2 : Json),
      up 0 = .resp s0 b0 → ¬(200 ≤ s0 ∧ s0 < 300) →
      up 1 = .resp s1 b1 → ¬(200 ≤ s1 ∧ s1 < 300) →
      up 2 = .resp s2 b2 → ¬(200 ≤ s2 ∧ s2 < 300) →
      tryBodyMain up = (.raised (.httpStatusErr s2), 3, 1 + 2 + 4)) ∧
    (∀ (key : Option (List Char)) (s b : List Char) (up : Nat → Attempt)
        (s0 s1 : Nat) (b0 b1 body : Json) (t : List Char),
      keyMissing key = false →
      up 0 = .resp s0 b0 → ¬(200 ≤ s0 ∧ s0 < 300) →
      up 1 = .resp s1 b1 → ¬(200 ≤ s1 ∧ s1 < 300) →
      up 2 = .resp 200 body → extractText body = .ok t →
      generateSqlFromGeminiMain key s b up = (.ok (sanitizeSql t), 3, 1 + 2)) := by
  constructor
  · intro up s0 s1 s2 b0 b1 b2 hu0 hn0 hu1 hn1 hu2 hn2
    exact tryBodyMain_all_fail up s0 s1 s2 b0 b1 b2 hu0 hn0 hu1 hn1 hu2 hn2
  · intro key s b up s0 s1 b0 b1 body t hkey hu0 hn0 hu1 hn1 hu2 hex
    rw [genMain_eq key s b up hkey _ 3 (1 + 2)
      (tryBodyMain_third_ok up s0 s1 b0 b1 body t hu0 hn0 hu1 hn1 hu2 hex)]
    rfl

/-- Claim C3, witness: two 500 answers followed by a 200 with text
`SELECT 1` give overall success with 3 requests and 3 seconds slept; three
404 answers give the status error for the third response after 7 seconds. -/
theorem claim_C3_retry_backoff_witness :
    tryBodyMain (fun _ => .resp 404 (.obj []))
      = (.raised (.httpStatusErr 404), 3, 1 + 2 + 4) ∧
    generateSqlFromGeminiMain (some ['k']) ['s'] ['b']
        (fun i => if i < 2 then .resp 500 (.obj []) else .resp 200 (wellBody "SELECT 1".data))
      = (.ok (sanitizeSql "SELECT 1".data), 3, 1 + 2) :=
  ⟨claim_C3_retry_backoff.1 (fun _ => .resp 404 (.obj [])) 404 404 404
      (.obj []) (.obj []) (.obj []) rfl (by omega) rfl (by omega) rfl (by omega),
   claim_C3_retry_backoff.2 (some ['k']) ['s'] ['b']
      (fun i => if i < 2 then .resp 500 (.obj []) else .resp 200 (wellBody "SELECT 1".data))
      500 500 (.obj []) (.obj []) (wellBody "SELECT 1".data) "SELECT 1".data
      rfl rfl (by omega) rfl (by omega) rfl rfl⟩

/-- Claim C4 (code bug).  On a success status whose body lacks the
`candidates` key, the `try` block raises exactly the parse `HTTPException`
(500, `Could not parse the response from the AI model.`) as the spec says —
but the function's own blanket `except Exception` handler catches it and
re-raises 500 with the generic internal-error detail, so the parse-specific
classification never reaches the caller. -/
theorem claim_C4_parse_error_swallowed :
    extractText (.obj []) = .shapeErr ∧
    (tryBodyMain (fun _ => .resp 200 (.obj []))).1
      = .raised (.httpExc ⟨500, parseDetail⟩) ∧
    (generateSqlFromGeminiMain (some ['k']) ['s'] ['b']
        (fun _ => .resp 200 (.obj []))).1 = .error ⟨500, internalDetailMain⟩ ∧
    internalDetailMain ≠ parseDetail :=
  ⟨rfl, rfl, rfl, by decide⟩

/-- Claim C5, counterexample.  With an uploaded schema whose bytes are not
valid UTF-8 (the single byte 0xFF) and an empty business_logic, the endpoint
does not return the claimed 400 client error: reading the schema file at line
161 happens before the emptiness check at line 164, and the
`UnicodeDecodeError` escapes unhandled (a server failure). -/
theorem claim_C5_decode_counterexample :
    (generateSqlEndpoint (some [255]) [] none (fun _ => .netFail)).result
      = .decodeError ∧
    EndpointResult.decodeError ≠ .httpError ⟨400, emptyLogicDetail⟩ :=
  ⟨rfl, by decide⟩

/-- Claim C5, amended.  `generate_sql` checks in order: if no schema has been
uploaded it returns a 400 client error without reading `business_logic` (the
whole trace is a constant independent of it); otherwise it first reads and
decodes the stored schema file — if the stored bytes do not decode as text an
unhandled decode error escapes regardless of `business_logic`; otherwise, if
`business_logic` is empty it returns a 400 client error without calling the
synthesizer; only when all of that passes does it call the synthesizer with
the decoded stored schema and the given `business_logic`, and its response is
the synthesizer's value as `{sql_query}` or the synthesizer's raised error. -/
theorem claim_C5_check_order :
    (∀ (b : List Char) (key : Option (List Char)) (up : Nat → Attempt),
      generateSqlEndpoint none b key up =
        ⟨.httpError ⟨400, noSchemaDetail⟩, none, 0, 0⟩) ∧
    (∀ (bytes : List Nat) (b : List Char) (key : Option (List Char))
        (up : Nat → Attempt), utf8Decode bytes = none →
      generateSqlEndpoint (some bytes) b key up = ⟨.decodeError, none, 0, 0⟩) ∧
    (∀ (bytes : List Nat) (schema : List Char) (key : Option (List Char))
        (up : Nat → Attempt), utf8Decode bytes = some schema →
      generateSqlEndpoint (some bytes) [] key up =
        ⟨.httpError ⟨400, emptyLogicDetail⟩, none, 0, 0⟩) ∧
    (∀ (bytes : List Nat) (schema b : List Char) (key : Option (List Char))
        (up : Nat → Attempt), utf8Decode bytes = some schema → b ≠ [] →
      (generateSqlEndpoint (some bytes) b key up).synthCall = some (schema, b) ∧
      (generateSqlEndpoint (some bytes) b key up).result =
        (match (generateSqlFromGeminiMain key schema b up).1 with
          | .ok q => .ok q
          | .error e => .httpError e)) := by
  refine ⟨fun b key up => rfl, ?_, ?_, ?_⟩
  · intro bytes b key up hdec
    simp [generateSqlEndpoint, hdec]
  · intro bytes schema key up hdec
    exact genEndpoint_empty_logic bytes schema key up hdec
  · intro bytes schema b key up hdec hb
    exact genEndpoint_called bytes schema b key up hdec hb

/-- Claim C5, witness: the amended theorem at concrete inputs — schema byte
`C`, empty then non-empty business_logic. -/
theorem claim_C5_check_order_witness :
    utf8Decode [67] = some ['C'] ∧
    generateSqlEndpoint (some [67]) [] none (fun _ => .netFail)
      = ⟨.httpError ⟨400, emptyLogicDetail⟩, none, 0, 0⟩ ∧
    (generateSqlEndpoint (some [67]) ['b'] none (fun _ => .netFail)).synthCall
      = some (['C'], ['b']) :=
  ⟨by decide,
   claim_C5_check_order.2.2.1 [67] ['C'] none (fun _ => .netFail) (by decide),
   (claim_C5_check_order.2.2.2 [67] ['C'] ['b'] none (fun _ => .netFail)
      (by decide) (by decide)).1⟩

/-- Claim C6.  `upload_schema` stores the uploaded raw bytes verbatim at the
single schema location, overwriting any prior content: after uploading A and
then B, the stored state is exactly B (independent of A and of any earlier
state), and a subsequent `generate_sql` call hands the synthesizer exactly
B's decoded contents as the schema. -/
theorem claim_C6_last_write_wins
    (st0 : Option (List Nat)) (A B : List Nat) (fnA fnB schema b : List Char)
    (key : Option (List Char)) (up : Nat → Attempt)
    (hdec : utf8Decode B = some schema) (hb : b ≠ []) :
    (uploadDdlSchema (uploadDdlSchema st0 A fnA).store B fnB).store = some B ∧
    (generateSqlEndpoint
        (uploadDdlSchema (uploadDdlSchema st0 A fnA).store B fnB).store
        b key up).synthCall = some (schema, b) :=
  ⟨rfl, (genEndpoint_called B schema b key up hdec hb).1⟩

/-- Claim C6, witness: upload byte `A` then byte `B`; the schema the
synthesizer receives is `B`. -/
theorem claim_C6_last_write_wins_witness :
    (uploadDdlSchema (uploadDdlSchema none [65] []).store [66] []).store = some [66] ∧
    (generateSqlEndpoint
        (uploadDdlSchema (uploadDdlSchema none [65] []).store [66] []).store
        ['b'] none (fun _ => .netFail)).synthCall = some (['B'], ['b']) :=
  claim_C6_last_write_wins none [65] [66] [] [] ['B'] ['b'] none
    (fun _ => .netFail) (by decide) (by decide)

/-- Claim C7.  Whenever the GEMINI_API_KEY environment value is unset or
empty, the synthesizer fails with the 500 ConfigError detail and sends no
HTTP request upstream (request count 0, nothing slept), for every schema,
business_logic and upstream behavior. -/
theorem claim_C7_config_error
    (key : Option (List Char)) (s b : List Char) (up : Nat → Attempt)
    (hk : keyMissing key = true) :
    generateSqlFromGeminiMain key s b up = (.error ⟨500, configDetailMain⟩, 0, 0) := by
  unfold generateSqlFromGeminiMain
  rw [hk]
  simp

/-- Claim C7, witness: unset key (`os.getenv` returned `None`). -/
theorem claim_C7_config_error_witness :
    keyMissing none = true ∧
    generateSqlFromGeminiMain none ['s'] ['b'] (fun _ => .netFail)
      = (.error ⟨500, configDetailMain⟩, 0, 0) :=
  ⟨rfl, claim_C7_config_error none ['s'] ['b'] (fun _ => .netFail) rfl⟩

/-- Claim C8, counterexample.  When `asyncpg.create_pool` fails at startup,
`connect_to_db` returns normally (`.ok`) with the pool set to `None`, merely
printing a FATAL line to stdout: the failure is discarded rather than
surfaced as an error, contradicting the claim that no failure is discarded
and that a pool-initialization failure is surfaced as an error. -/
theorem claim_C8_swallow_counterexample :
    connectToDb (.error "connection refused".data)
      = (.ok none,
         ("FATAL: Could not connect to database: connection refused".data)) :=
  rfl

/-- Claim C8, amended.  A failure while initializing the database connection
pool at startup is caught and logged to stdout, but then discarded:
`connect_to_db` sets the pool to `None` and returns normally, so the failure
is not surfaced as an error to any caller; the spec's propagation policy does
not hold for this startup path. -/
theorem claim_C8_pool_failure_discarded (msg : List Char) :
    connectToDb (.error msg)
      = (.ok none, ("FATAL: Could not connect to database: ".data) ++ msg) :=
  rfl

/-- Claim C9.  The two synthesizer variants build byte-identical prompts and
request payloads from the same schema and business_logic, and share the
extraction and sanitization code, so whenever the first request is answered
with HTTP 200 and a well-shaped body both variants return the same SQL
string. -/
theorem claim_C9_variants_agree
    (key : Option (List Char)) (s b : List Char) (up : Nat → Attempt)
    (body : Json) (t : List Char)
    (hkey : keyMissing key = false)
    (hu0 : up 0 = .resp 200 body) (hex : extractText body = .ok t) :
    promptMain s b = promptService s b ∧
    requestPayloadMain s b = requestPayloadService s b ∧
    (generateSqlFromGeminiMain key s b up).1 = .ok (sanitizeSql t) ∧
    generateSqlFromGeminiService key s b up = .ok (sanitizeSql t) := by
  refine ⟨rfl, rfl, ?_, ?_⟩
  · rw [genMain_eq key s b up hkey _ 1 0 (tryBodyMain_first_ok up body t hu0 hex)]
    rfl
  · unfold generateSqlFromGeminiService
    rw [hkey]
    have hts : tryBodyService up = .ret (sanitizeSql t) := by
      simp only [tryBodyService, hu0]
      rw [if_pos (by omega), hex]
    rw [hts]
    simp

/-- Claim C9, witness: both variants at a concrete 200 response with text
`SELECT 1`. -/
theorem claim_C9_variants_agree_witness :
    (generateSqlFromGeminiMain (some ['k']) ['s'] ['b']
        (fun _ => .resp 200 (wellBody "SELECT 1".data))).1
      = .ok (sanitizeSql "SELECT 1".data) ∧
    generateSqlFromGeminiService (some ['k']) ['s'] ['b']
        (fun _ => .resp 200 (wellBody "SELECT 1".data))
      = .ok (sanitizeSql "SELECT 1".data) :=
  ⟨(claim_C9_variants_agree (some ['k']) ['s'] ['b']
      (fun _ => .resp 200 (wellBody "SELECT 1".data)) (wellBody "SELECT 1".data)
      "SELECT 1".data rfl rfl rfl).2.2.1,
   (claim_C9_variants_agree (some ['k']) ['s'] ['b']
      (fun _ => .resp 200 (wellBody "SELECT 1".data)) (wellBody "SELECT 1".data)
      "SELECT 1".data rfl rfl rfl).2.2.2⟩

/-- Claim C10.  `upload_schema` accepts and stores arbitrary byte sequences
verbatim (binary write), but `generate_sql` re-reads the stored file as text:
the byte sequence `[0xFF]` is not valid UTF-8, its upload succeeds, and every
subsequent `generate_sql` call — for any business_logic, key and upstream —
ends in the unhandled decode error (a server-class failure escaping the
handler), not in a client error. -/
theorem claim_C10_decode_crash :
    (∀ (st0 : Option (List Nat)) (bytes : List Nat) (fn : List Char),
      (uploadDdlSchema st0 bytes fn).store = some bytes) ∧
    utf8Decode [255] = none ∧
    (∀ (b : List Char) (key : Option (List Char)) (up : Nat → Attempt),
      (generateSqlEndpoint (some [255]) b key up).result = .decodeError) :=
  ⟨fun st0 bytes fn => rfl, rfl, fun b key up => rfl⟩
